import Mathlib

/-!
Verification of the FTL excerpt: the ring-log read path of the /api/ftl
HTTP handlers (src/api/ftl.c) and the TOML/CLI configuration layer
(src/config/toml_reader.c, src/config/cli.c), shallowly embedded in Lean.

Machine integers: the cursor computation in api_ftl_dnsmasq_log works on
C unsigned int values (next_id, nextID, LOG_SIZE).  We model them as Nat
together with an explicit 32-bit wrapping subtraction usub32, so that the
embedding is faithful even where the C subtraction could wrap.
-/

/-- Modulus of C unsigned int (32 bit). -/
def U32 : Nat := 4294967296

/-- C unsigned subtraction a - b on 32-bit unsigned operands (a, b < 2^32),
    expressed on Nat: (a - b) mod 2^32. -/
def usub32 (a b : Nat) : Nat := (a + (U32 - b)) % U32

/-- One slot of the FIFO log.  The C struct fifologData keeps two parallel
    fixed-size arrays timestamp[LOG_SIZE] and message[LOG_SIZE]; we fuse the
    two arrays into a single list of records, which the spec (section 9)
    states is semantically identical.  timestamp 0 is the uninitialized
    sentinel. -/
structure LogEntry where
  timestamp : Nat
  message : String
deriving Repr, DecidableEq

/-- The shared-memory FIFO log state (struct fifologData): the slot arrays
    plus the monotone next_id counter.  The slot list is expected to have
    length LOG_SIZE; theorems that need this carry it as a hypothesis. -/
structure fifologData where
  entries : List LogEntry
  next_id : Nat
deriving Repr, DecidableEq

/-- Cursor resolution: the start-slot computation of api_ftl_dnsmasq_log
    (src/api/ftl.c lines 79-101), with the exact branch order and unsigned
    arithmetic of the C code:

      if(nextID >= next_id)                                   start = LOG_SIZE;
      else if(next_id > LOG_SIZE && nextID < next_id - LOG_SIZE) start = 0;
      else if(next_id >= LOG_SIZE)        start = LOG_SIZE - (next_id - nextID);
      else                                                    start = nextID;
-/
def resolve_start_slot (LOG_SIZE next_id nextID : Nat) : Nat :=
  if next_id ≤ nextID then LOG_SIZE
  else if LOG_SIZE < next_id ∧ nextID < usub32 next_id LOG_SIZE then 0
  else if LOG_SIZE ≤ next_id then usub32 LOG_SIZE (usub32 next_id nextID)
  else nextID

/-- The read loop of api_ftl_dnsmasq_log (src/api/ftl.c lines 108-120),
    run from the current slot onwards: collect slots in order and break at
    the first slot whose timestamp is 0. -/
def scan_entries : List LogEntry → List LogEntry
  | [] => []
  | e :: rest => if e.timestamp = 0 then [] else e :: scan_entries rest

/-- The response sent by the log-tail handler: either the unauthorized
    reply or the JSON object {log: [...], nextID: n}. -/
inductive LogReply where
  | unauthorized : LogReply
  | ok : List LogEntry → Nat → LogReply
deriving Repr, DecidableEq

/-- api_ftl_dnsmasq_log (src/api/ftl.c lines 63-126).  The query parameter
    is the optional nextID unsigned-int variable; None covers both a missing
    query string and a query string without a parsable nextID, in which case
    start stays 0.  On failed authorization the handler returns at once. -/
def api_ftl_dnsmasq_log (LOG_SIZE : Nat) (authorized : Bool)
    (fifo : fifologData) (nextID : Option Nat) : LogReply :=
  if authorized = false then LogReply.unauthorized
  else
    let start : Nat :=
      match nextID with
      | some n => resolve_start_slot LOG_SIZE fifo.next_id n
      | none => 0
    LogReply.ok (scan_entries (fifo.entries.drop start)) fifo.next_id

/-! ## Helper lemmas -/

/-- 32-bit unsigned subtraction agrees with Nat subtraction when the
    minuend is in range and at least the subtrahend (no wrap). -/
theorem usub32_of_le (a b : Nat) (h : b ≤ a) (ha : a < U32) :
    usub32 a b = a - b := by
  simp only [usub32, U32] at *
  omega

/-- The read loop is exactly a takeWhile on the non-sentinel predicate. -/
theorem scan_entries_eq_takeWhile (l : List LogEntry) :
    scan_entries l = l.takeWhile (fun e => e.timestamp != 0) := by
  induction l with
  | nil => rfl
  | cons e t ih =>
    by_cases h : e.timestamp = 0
    · simp [scan_entries, List.takeWhile_cons, h]
    · simp [scan_entries, List.takeWhile_cons, h, ih]

/-! ## Claims about cursor resolution -/

/-- Claim C1: for capacity > 0, next_id > capacity and
    next_id - capacity <= requested_id < next_id, cursor resolution returns
    capacity - (next_id - requested_id) (full ring, measured from the end). -/
theorem resolve_full_ring_measure_from_end
    (L n r : Nat) (hL : 0 < L) (hLu : L < U32) (hn : n < U32)
    (h1 : L < n) (h2 : n - L ≤ r) (h3 : r < n) :
    resolve_start_slot L n r = L - (n - r) := by
  have hnL : usub32 n L = n - L := usub32_of_le n L (le_of_lt h1) hn
  have hnr : usub32 n r = n - r := usub32_of_le n r (le_of_lt h3) hn
  have hle : n - r ≤ L := by omega
  unfold resolve_start_slot
  rw [if_neg (by omega : ¬ n ≤ r),
      if_neg (by rw [hnL]; omega : ¬ (L < n ∧ r < usub32 n L)),
      if_pos (by omega : L ≤ n), hnr, usub32_of_le L (n - r) hle hLu]

/-- Witness for C1 at the spec example capacity=10, next_id=25,
    requested_id=20: the start slot is 10 - (25 - 20) = 5. -/
theorem resolve_full_ring_measure_from_end_w :
    0 < 10 ∧ 10 < U32 ∧ 25 < U32 ∧ 10 < 25 ∧ 25 - 10 ≤ 20 ∧ 20 < 25 ∧
    resolve_start_slot 10 25 20 = 10 - (25 - 20) :=
  ⟨by decide, by decide, by decide, by decide, by decide, by decide,
   resolve_full_ring_measure_from_end 10 25 20 (by decide) (by decide)
     (by decide) (by decide) (by decide) (by decide)⟩

/-- Claim C2: for next_id > capacity and requested_id strictly below
    next_id - capacity (evicted cursor) the start slot is 0, and the
    authorized handler serves the entire retained buffer as a normal
    (non-failure) response. -/
theorem resolve_evicted_serves_full_buffer
    (L r : Nat) (fifo : fifologData) (hL : 0 < L) (hLu : L < U32)
    (hn : fifo.next_id < U32) (h1 : L < fifo.next_id)
    (h2 : r < fifo.next_id - L) :
    resolve_start_slot L fifo.next_id r = 0 ∧
    api_ftl_dnsmasq_log L true fifo (some r) =
      LogReply.ok (scan_entries fifo.entries) fifo.next_id := by
  have hnL : usub32 fifo.next_id L = fifo.next_id - L :=
    usub32_of_le _ _ (le_of_lt h1) hn
  have hres : resolve_start_slot L fifo.next_id r = 0 := by
    unfold resolve_start_slot
    rw [if_neg (by omega : ¬ fifo.next_id ≤ r),
        if_pos (by rw [hnL]; exact ⟨h1, h2⟩)]
  refine ⟨hres, ?_⟩
  have hrfl : api_ftl_dnsmasq_log L true fifo (some r) =
      LogReply.ok
        (scan_entries (fifo.entries.drop (resolve_start_slot L fifo.next_id r)))
        fifo.next_id := rfl
  rw [hrfl, hres]
  rfl

/-- Witness for C2 at capacity=10, next_id=25, requested_id=3 on a
    one-entry slot list: start slot 0, full buffer served. -/
theorem resolve_evicted_serves_full_buffer_w :
    0 < 10 ∧ 10 < U32 ∧ 25 < U32 ∧ 10 < 25 ∧ 3 < 25 - 10 ∧
    (resolve_start_slot 10 25 3 = 0 ∧
     api_ftl_dnsmasq_log 10 true { entries := [{ timestamp := 7, message := "q" }], next_id := 25 } (some 3) =
       LogReply.ok (scan_entries [{ timestamp := 7, message := "q" }]) 25) :=
  ⟨by decide, by decide, by decide, by decide, by decide,
   resolve_evicted_serves_full_buffer 10 3
     { entries := [{ timestamp := 7, message := "q" }], next_id := 25 }
     (by decide) (by decide) (by decide) (by decide) (by decide)⟩

/-- Counterexample to claim C3 as stated: with capacity 10, next_id 5 and
    requested_id 5 (which satisfies next_id <= capacity and
    0 <= requested_id <= next_id) the code takes the caught-up branch and
    returns capacity = 10, not requested_id = 5. -/
theorem resolve_prewrap_at_next_id_cex :
    (5 : Nat) ≤ 10 ∧ (0 : Nat) ≤ 5 ∧ (5 : Nat) ≤ 5 ∧
    resolve_start_slot 10 5 5 ≠ 5 := by decide

/-- Claim C3 (amended): for next_id <= capacity and requested_id strictly
    below next_id, cursor resolution returns exactly requested_id; at
    requested_id = next_id the caught-up branch returns capacity instead. -/
theorem resolve_prewrap_returns_requested
    (L n r : Nat) (hLu : L < U32) (hn : n < U32)
    (hnL : n ≤ L) (hr : r < n) :
    resolve_start_slot L n r = r := by
  unfold resolve_start_slot
  rw [if_neg (by omega : ¬ n ≤ r),
      if_neg (by omega : ¬ (L < n ∧ r < usub32 n L))]
  by_cases hc : L ≤ n
  · have heq : n = L := le_antisymm hnL hc
    rw [if_pos hc, usub32_of_le n r (le_of_lt hr) hn,
        usub32_of_le L (n - r) (by omega) hLu]
    omega
  · rw [if_neg hc]

/-- Witness for amended C3 at capacity=10, next_id=5, requested_id=3. -/
theorem resolve_prewrap_returns_requested_w :
    10 < U32 ∧ 5 < U32 ∧ (5 : Nat) ≤ 10 ∧ (3 : Nat) < 5 ∧
    resolve_start_slot 10 5 3 = 3 :=
  ⟨by decide, by decide, by decide, by decide,
   resolve_prewrap_returns_requested 10 5 3 (by decide) (by decide)
     (by decide) (by decide)⟩

/-- Claim C4: for capacity > 0 and requested_id >= next_id, cursor
    resolution returns capacity, and the authorized handler sends an empty
    entry list together with the current next_id (a normal response, not an
    error). -/
theorem resolve_caught_up_empty
    (L r : Nat) (fifo : fifologData) (hL : 0 < L)
    (hlen : fifo.entries.length = L) (hr : fifo.next_id ≤ r) :
    resolve_start_slot L fifo.next_id r = L ∧
    api_ftl_dnsmasq_log L true fifo (some r) = LogReply.ok [] fifo.next_id := by
  have hres : resolve_start_slot L fifo.next_id r = L := by
    unfold resolve_start_slot
    rw [if_pos hr]
  refine ⟨hres, ?_⟩
  have hrfl : api_ftl_dnsmasq_log L true fifo (some r) =
      LogReply.ok
        (scan_entries (fifo.entries.drop (resolve_start_slot L fifo.next_id r)))
        fifo.next_id := rfl
  have hdrop : fifo.entries.drop L = [] := by
    rw [← hlen]
    simp
  rw [hrfl, hres, hdrop]
  rfl

/-- Witness for C4 at capacity=2, next_id=5, requested_id=7 on a
    two-entry slot list. -/
theorem resolve_caught_up_empty_w :
    0 < 2 ∧
    ([{ timestamp := 1, message := "a" }, { timestamp := 2, message := "b" }] : List LogEntry).length = 2 ∧
    (5 : Nat) ≤ 7 ∧
    (resolve_start_slot 2 5 7 = 2 ∧
     api_ftl_dnsmasq_log 2 true { entries := [{ timestamp := 1, message := "a" }, { timestamp := 2, message := "b" }], next_id := 5 } (some 7) =
       LogReply.ok [] 5) :=
  ⟨by decide, by decide, by decide,
   resolve_caught_up_empty 2 7
     { entries := [{ timestamp := 1, message := "a" }, { timestamp := 2, message := "b" }], next_id := 5 }
     (by decide) (by decide) (by decide)⟩

/-! ## Claims about the read loop and the response contract -/

/-- Claim C5: for every start slot and slot contents, the read loop
    returns the slots from start onwards in order and stops at the first
    slot with timestamp 0; equivalently it is takeWhile of the non-sentinel
    predicate on the suffix starting at start, so no entry at or after the
    first sentinel slot appears in the response. -/
theorem read_loop_stops_at_sentinel (l : List LogEntry) (start : Nat) :
    scan_entries (l.drop start) =
      (l.drop start).takeWhile (fun e => e.timestamp != 0) :=
  scan_entries_eq_takeWhile (l.drop start)

/-- Claim C6: the resumable-cursor round trip.  Reading with requested_id
    equal to the store's current next_id (the value any prior response on
    this state reports), with no appends in between, yields an empty entry
    list and the same next_id; and every authorized response carries the
    store's current next_id. -/
theorem cursor_round_trip (L : Nat) (fifo : fifologData)
    (hlen : fifo.entries.length = L) :
    api_ftl_dnsmasq_log L true fifo (some fifo.next_id) =
      LogReply.ok [] fifo.next_id ∧
    ∀ q : Option Nat, ∃ es : List LogEntry,
      api_ftl_dnsmasq_log L true fifo q = LogReply.ok es fifo.next_id := by
  constructor
  · have hres : resolve_start_slot L fifo.next_id fifo.next_id = L := by
      unfold resolve_start_slot
      rw [if_pos (le_refl fifo.next_id)]
    have hrfl : api_ftl_dnsmasq_log L true fifo (some fifo.next_id) =
        LogReply.ok
          (scan_entries
            (fifo.entries.drop (resolve_start_slot L fifo.next_id fifo.next_id)))
          fifo.next_id := rfl
    have hdrop : fifo.entries.drop L = [] := by
      rw [← hlen]
      simp
    rw [hrfl, hres, hdrop]
    rfl
  · intro q
    cases q with
    | none => exact ⟨scan_entries (fifo.entries.drop 0), rfl⟩
    | some n =>
        exact ⟨scan_entries
          (fifo.entries.drop (resolve_start_slot L fifo.next_id n)), rfl⟩

/-- Witness for C6 on a concrete two-slot store with next_id 2. -/
theorem cursor_round_trip_w :
    ([{ timestamp := 4, message := "a" }, { timestamp := 9, message := "b" }] : List LogEntry).length = 2 ∧
    (api_ftl_dnsmasq_log 2 true { entries := [{ timestamp := 4, message := "a" }, { timestamp := 9, message := "b" }], next_id := 2 } (some 2) =
       LogReply.ok [] 2 ∧
     ∀ q : Option Nat, ∃ es : List LogEntry,
       api_ftl_dnsmasq_log 2 true { entries := [{ timestamp := 4, message := "a" }, { timestamp := 9, message := "b" }], next_id := 2 } q =
         LogReply.ok es 2) :=
  ⟨by decide,
   cursor_round_trip 2
     { entries := [{ timestamp := 4, message := "a" }, { timestamp := 9, message := "b" }], next_id := 2 }
     (by decide)⟩

/-- Claim C9: bounds safety of cursor resolution.  For in-range unsigned
    inputs the computed start slot never exceeds LOG_SIZE (so the read
    loop only touches indices in [0, LOG_SIZE)), and the unsigned
    subtraction next_id - LOG_SIZE of the eviction test, evaluated only
    under the guard next_id > LOG_SIZE, equals the exact difference (never
    wraps). -/
theorem resolve_start_slot_bounded
    (L n r : Nat) (hL : 0 < L) (hLu : L < U32) (hn : n < U32) (hr : r < U32) :
    resolve_start_slot L n r ≤ L ∧ (L < n → usub32 n L = n - L) := by
  constructor
  · unfold resolve_start_slot
    split_ifs with h1 h2 h3
    · exact le_refl L
    · exact Nat.zero_le L
    · have hnr : usub32 n r = n - r := usub32_of_le n r (by omega) hn
      have hle : n - r ≤ L := by
        by_cases hc : L < n
        · have hnL : usub32 n L = n - L := usub32_of_le n L (le_of_lt hc) hn
          rw [hnL] at h2
          omega
        · omega
      rw [hnr, usub32_of_le L (n - r) hle hLu]
      omega
    · omega
  · intro hc
    exact usub32_of_le n L (le_of_lt hc) hn

/-- Witness for C9 at LOG_SIZE=500, next_id=700, nextID=123. -/
theorem resolve_start_slot_bounded_w :
    0 < 500 ∧ 500 < U32 ∧ 700 < U32 ∧ 123 < U32 ∧
    (resolve_start_slot 500 700 123 ≤ 500 ∧
     (500 < 700 → usub32 700 500 = 700 - 500)) :=
  ⟨by decide, by decide, by decide, by decide,
   resolve_start_slot_bounded 500 700 123 (by decide) (by decide) (by decide)
     (by decide)⟩

/-! ## The database-info handler (src/api/ftl.c lines 128-201) -/

/-- File-type bits of st_mode (Linux sys/stat.h values). -/
def S_IFMT : Nat := 61440

/-- Regular-file bit pattern of st_mode. -/
def S_IFREG : Nat := 32768

/-- Symbolic-link bit pattern of st_mode. -/
def S_IFLNK : Nat := 40960

/-- The stat() fields api_ftl_database reads from the database file. -/
structure StatInfo where
  st_size : Int
  st_mode : Nat
  st_atime : Int
  st_mtime : Int
  st_ctime : Int
  st_uid : Nat
  st_gid : Nat
deriving Repr, DecidableEq

/-- The JSON payload api_ftl_database assembles (string formatting of the
    octal fields and the passwd/group name lookups are wire formatting and
    external lookups, out of the modelled core). -/
structure DatabaseJson where
  size : Int
  type_octal : Nat
  type_human : String
  mode_octal : Nat
  atime : Int
  mtime : Int
  ctime : Int
  uid : Nat
  gid : Nat
  queries : Int
  sqlite_version : String
deriving Repr, DecidableEq

/-- The body-building part of api_ftl_database (src/api/ftl.c
    lines 136-197). -/
def build_database_json (st : StatInfo) (queries : Int)
    (sqlite_version : String) : DatabaseJson :=
  { size := st.st_size
    type_octal := (st.st_mode &&& S_IFMT) >>> 9
    type_human :=
      if st.st_mode &&& S_IFMT = S_IFREG then "Regular file"
      else if st.st_mode &&& S_IFMT = S_IFLNK then "Symbolic link"
      else "Unknown"
    mode_octal := st.st_mode &&& 511
    atime := st.st_atime
    mtime := st.st_mtime
    ctime := st.st_ctime
    uid := st.st_uid
    gid := st.st_gid
    queries := queries
    sqlite_version := sqlite_version }

/-- A message sent on the connection by api_ftl_database. -/
inductive DbSent where
  | unauthorized : DbSent
  | payload : DatabaseJson → DbSent
deriving Repr, DecidableEq

/-- api_ftl_database (src/api/ftl.c lines 128-201) as the sequence of
    responses it emits: on failed authorization it sends the unauthorized
    reply WITHOUT returning (the C code lacks a return at line 133) and
    then still builds and sends the full database detail response. -/
def api_ftl_database (authorized : Bool) (st : StatInfo) (queries : Int)
    (sqlite_version : String) : List DbSent :=
  (if authorized = false then [DbSent.unauthorized] else []) ++
    [DbSent.payload (build_database_json st queries sqlite_version)]

/-- Claim C10: on an unauthorized request api_ftl_database emits the
    unauthorized reply and then still the full database detail payload,
    while api_ftl_dnsmasq_log returns only the unauthorized reply, reading
    nothing from the ring (its result does not depend on the fifo state). -/
theorem database_handler_auth_gap :
    (∀ (st : StatInfo) (q : Int) (v : String),
       api_ftl_database false st q v =
         [DbSent.unauthorized, DbSent.payload (build_database_json st q v)]) ∧
    (∀ (L : Nat) (fifo : fifologData) (nid : Option Nat),
       api_ftl_dnsmasq_log L false fifo nid = LogReply.unauthorized) :=
  ⟨fun _ _ _ => rfl, fun _ _ _ => rfl⟩

/-! ## The TOML config overlay (src/config/toml_reader.c, readFTLtoml) -/

/-- The fields of the global ConfigStruct (src/config/config.h) touched by
    the modelled part of the overlay. -/
structure ConfigModel where
  cname_deep_inspection : Bool
  block_esni : Bool
  edns0_ecs : Bool
  ignore_localhost : Bool
  parse_arp_cache : Bool
  maxDBdays : Int
  network_expire : Int
deriving Repr, DecidableEq

/-- A tomlc99 boolean datum: some b when the key exists with boolean value
    b (datum.ok), none when it is absent. -/
def datum_bool (d : Option Bool) : Bool := d.getD false

/-- The scalar boolean entries of the [dns] table that readFTLtoml reads
    (src/config/toml_reader.c lines 55-77). -/
structure DnsToml where
  CNAMEdeepInspect : Option Bool
  blockESNI : Option Bool
  EDNS0ECS : Option Bool
  ignoreLocalhost : Option Bool
deriving Repr, DecidableEq

/-- The [database.network] table (src/config/toml_reader.c
    lines 220-241). -/
structure NetworkToml where
  parseARP : Option Bool
  expire : Option Int
deriving Repr, DecidableEq

/-- The scalar-boolean part of the [dns] section of readFTLtoml
    (src/config/toml_reader.c lines 50-77), statement for statement.  Note
    line 63 of the source: inside the blockESNI branch the value stored is
    cname_deep_inspect.u.b, the datum of the dns.CNAMEdeepInspect entry,
    not block_esni.u.b. -/
def read_dns_section (c : ConfigModel) (dns : Option DnsToml) : ConfigModel :=
  match dns with
  | none => c
  | some t =>
    let c1 := match t.CNAMEdeepInspect with
      | some b => { c with cname_deep_inspection := b }
      | none => c
    let c2 := if t.blockESNI.isSome
      then { c1 with block_esni := datum_bool t.CNAMEdeepInspect }
      else c1
    let c3 := match t.EDNS0ECS with
      | some b => { c2 with edns0_ecs := b }
      | none => c2
    match t.ignoreLocalhost with
      | some b => { c3 with ignore_localhost := b }
      | none => c3

/-- The [database.network] section of readFTLtoml (src/config/toml_reader.c
    lines 220-241).  Note line 235 of the source: a valid
    database.network.expire value is stored into config.maxDBdays, not into
    config.network_expire. -/
def read_network_section (c : ConfigModel) (net : Option NetworkToml) :
    ConfigModel :=
  match net with
  | none => c
  | some t =>
    let c1 := match t.parseARP with
      | some b => { c with parse_arp_cache := b }
      | none => c
    match t.expire with
      | some v =>
          if 0 < v ∧ v ≤ 365 then { c1 with maxDBdays := v } else c1
      | none => c1

/-- Claim C7 (code bug, evaluated at the failing input): with the config
    source [dns] CNAMEdeepInspect = false, blockESNI = true, the overlay
    leaves block_esni = false for every starting configuration, although
    the field's own source entry is present, parses successfully and reads
    true; similarly a valid database.network.expire = 5 overrides
    maxDBdays, a different field's entry. -/
theorem toml_overlay_cross_field_bug :
    (∀ c : ConfigModel,
       (read_dns_section c
         (some { CNAMEdeepInspect := some false, blockESNI := some true,
                 EDNS0ECS := none, ignoreLocalhost := none })).block_esni
         = false) ∧
    (∀ c : ConfigModel,
       (read_network_section c
         (some { parseARP := none, expire := some 5 })).maxDBdays = 5 ∧
       (read_network_section c
         (some { parseARP := none, expire := some 5 })).network_expire
         = c.network_expire) := by
  constructor
  · intro c
    rfl
  · intro c
    constructor
    · simp [read_network_section]
    · simp [read_network_section]

/-! ## The CLI config setter (src/config/cli.c) -/

/-- A typed config value.  The modelled subset covers the CONF_BOOL case
    of readStringValue (src/config/cli.c lines 36-48), which the failing
    input below exercises. -/
inductive CValue where
  | boolean : Bool → CValue
deriving Repr, DecidableEq

/-- One struct conf_item: key path, current value, and whether its flags
    contain FLAG_RESTART_DNSMASQ. -/
structure ConfItem where
  k : String
  v : CValue
  restart_dnsmasq : Bool
deriving Repr, DecidableEq

/-- strcasecmp(a, b) == 0: the two strings agree up to ASCII case. -/
def strcasecmp_eq (a b : String) : Bool :=
  a.data.map Char.toLower == b.data.map Char.toLower

/-- readStringValue (src/config/cli.c lines 26-303) on the modelled value
    types: parse the text per the item's declared type; some parsed on
    success, none when the C function logs the allowed options and returns
    false. -/
def read_string_value (v : CValue) (value : String) : Option CValue :=
  match v with
  | CValue.boolean _ =>
    if strcasecmp_eq value "true" || strcasecmp_eq value "yes" then
      some (CValue.boolean true)
    else if strcasecmp_eq value "false" || strcasecmp_eq value "no" then
      some (CValue.boolean false)
    else
      none

/-- set_config_from_CLI (src/config/cli.c lines 305-385), returning the
    C return code together with the live settings after the call.  The
    configuration is the list of conf_items; duplicate_config and
    replace_config give the copy-validate-swap.  Return codes as in the
    source: 2 for an unknown key, 3 when the dnsmasq trial run of a
    FLAG_RESTART_DNSMASQ item fails, EXIT_SUCCESS = 0 on success, and the
    literal `return false` of line 339 for a value readStringValue rejects,
    which is the integer 0. -/
def set_config_from_CLI (dnsmasq_test_ok : Bool) (items : List ConfItem)
    (key value : String) : Nat × List ConfItem :=
  match items.find? (fun it => it.k == key) with
  | none => (2, items)
  | some item =>
    match read_string_value item.v value with
    | none => (0, items)
    | some newv =>
      if newv == item.v then
        (0, items)
      else if item.restart_dnsmasq && !dnsmasq_test_ok then
        (3, items)
      else
        (0, items.map (fun it => if it.k == key then { it with v := newv } else it))

/-- Claim C8 (code bug, evaluated at the failing input): on the one-item
    configuration holding the boolean key dns.blockESNI, an unknown key
    yields the distinct code 2, but the malformed value maybe for the
    known key yields return code 0 with the settings unchanged, and 0 is
    exactly the code of the successful update with value true: the
    malformed-value error is not distinct from success. -/
theorem cli_malformed_value_returns_success_bug :
    (set_config_from_CLI true
      [{ k := "dns.blockESNI", v := CValue.boolean false, restart_dnsmasq := false }]
      "dns.doesNotExist" "true").fst = 2 ∧
    set_config_from_CLI true
      [{ k := "dns.blockESNI", v := CValue.boolean false, restart_dnsmasq := false }]
      "dns.blockESNI" "maybe" =
      (0, [{ k := "dns.blockESNI", v := CValue.boolean false, restart_dnsmasq := false }]) ∧
    (set_config_from_CLI true
      [{ k := "dns.blockESNI", v := CValue.boolean false, restart_dnsmasq := false }]
      "dns.blockESNI" "true").fst = 0 := by
  refine ⟨?_, ?_, ?_⟩ <;> rfl
